import Mathlib

/-!
Verification development for the `ergo-solver` CLI (Go).

Shallow embedding of the program's core: the error taxonomy and its
classifiers (`isAuthError`, `isDailyExhaustedError`), the retry/backoff
wrappers (`puzzleNewWithRetry`, `submitWithRetry`), the proof-of-work
engine (`computePowNonce` over an executable SHA-256), the PoW freshness
policy (`ensurePow`), the interactive login recovery
(`ensureLoginInteractive`), and the orchestration loop of `runSolve`.

External effects (HTTP calls, prompts, random pacing draws) are modelled
as scripted oracles: each remote operation consumes the next entry of a
list of pre-recorded outcomes, and `rand.Intn(n)` draws are modelled as a
scripted natural taken modulo `n`.  Machine integers are modelled as
`Int`/`Nat` (the Go code never comes near overflow on these paths), and
durations are modelled in seconds (backoff) or milliseconds (PoW expiry),
matching the units the source compares in.
-/

/-! ### String helpers (Go `strings.Contains` / `strings.TrimSpace`) -/

/-- Whether `l` starts with `pre` (character-wise), as Go's prefix test
underlying `strings.Contains`. -/
def listStartsWith : List Char → List Char → Bool
  | _, [] => true
  | [], _ :: _ => false
  | a :: as, b :: bs => a == b && listStartsWith as bs

/-- Go `strings.Contains s sub` on character lists: some suffix of `l`
starts with `sub`. -/
def listContains : List Char → List Char → Bool
  | [], sub => listStartsWith [] sub
  | a :: t, sub => if listStartsWith (a :: t) sub then true else listContains t sub

/-- Go `strings.TrimSpace` on character lists (whitespace trimmed from
both ends). -/
def listTrim (l : List Char) : List Char :=
  ((l.dropWhile Char.isWhitespace).reverse.dropWhile Char.isWhitespace).reverse

/-- Go `strings.TrimSpace` on strings. -/
def strTrim (s : String) : String := String.mk (listTrim s.data)

/-! ### Error model (`apiError` and friends, `src/api.go` / `src/main.go`) -/

/-- A Go `error` value as the solver distinguishes them: a structured
`apiError` (status code plus server message), a `fmt.Errorf("...: %w", e)`
wrapper, the sentinel `ErrAIUnavailable`, or any other opaque error. -/
inductive GoErr where
  | api (statusCode : Nat) (message : String)
  | wrapped (note : String) (inner : GoErr)
  | aiUnavailable
  | other (message : String)
deriving DecidableEq, Repr

/-- Go `errors.As(err, &ae)` for `*apiError`: walk the wrap chain and
return the status code and message of the first `apiError` found. -/
def asApiError : GoErr → Option (Nat × String)
  | .api statusCode message => some (statusCode, message)
  | .wrapped _ inner => asApiError inner
  | .aiUnavailable => none
  | .other _ => none

/-- `isAuthError` (src/main.go:482-485): the error is an `apiError` with
status 401 or 403. -/
def isAuthError (e : GoErr) : Bool :=
  match asApiError e with
  | some (statusCode, _) => statusCode == 401 || statusCode == 403
  | none => false

/-- First quota-exhaustion marker substring ("quota exhausted"). -/
def dailyMarker1 : String := "次数已用完"

/-- Second quota-exhaustion marker substring ("completed"). -/
def dailyMarker2 : String := "已完成"

/-- Third quota-exhaustion marker substring ("come back tomorrow"). -/
def dailyMarker3 : String := "请明天再来"

/-- `isDailyExhaustedError` (src/main.go:489-498): an `apiError` with
status 403 whose trimmed message contains one of the three server-side
marker substrings. -/
def isDailyExhaustedError (e : GoErr) : Bool :=
  match asApiError e with
  | none => false
  | some (statusCode, message) =>
    statusCode == 403 &&
      (let m := listTrim message.data
       listContains m dailyMarker1.data || listContains m dailyMarker2.data ||
         listContains m dailyMarker3.data)

/-- The 429 check of the retry wrappers (src/main.go:296,316):
`errors.As(err, &ae) && ae.StatusCode == 429`. -/
def isRateLimitErr (e : GoErr) : Bool :=
  match asApiError e with
  | some (statusCode, _) => statusCode == 429
  | none => false

/-- Go `errors.Is(err, ErrAIUnavailable)` (src/main.go:181). -/
def isAIUnavailable : GoErr → Bool
  | .aiUnavailable => true
  | .wrapped _ inner => isAIUnavailable inner
  | _ => false

/-- Process exit status of `main` (src/main.go:29-36): exit 1 when `run`
returns an error, normal exit 0 otherwise. -/
def processExit : Except GoErr Unit → Nat
  | .ok _ => 0
  | .error _ => 1

/-! ### API response records (src/api.go) -/

/-- The puzzle payload of `puzzleNewResponse`; its contents never drive
control flow in the orchestrator, so only the id is carried. -/
structure puzzleP where
  id : String
deriving DecidableEq, Repr

/-- `puzzleNewResponse` (src/api.go:291-296). -/
structure puzzleNewResponse where
  puzzle : puzzleP
  remainingAttempts : Int
  dailyRemaining : Int
  dailyLimit : Int
deriving DecidableEq, Repr

/-- `puzzleSubmitResponse` (src/api.go:314-323). -/
structure puzzleSubmitResponse where
  success : Bool
  correct : Bool
  message : String
  remainingAttempts : Int
  pointsAwarded : Int
  pointsBalance : Int
  dailyRemaining : Int
  dailyLimit : Int
deriving DecidableEq, Repr

/-- `dailyRemainingResponse` (src/api.go:208-212). -/
structure dailyRemainingResponse where
  remaining : Int
  completed : Int
  limit : Int
deriving DecidableEq, Repr

/-- `powStatusResponse` (src/api.go:224-228); `powExpiresAt` is a Unix
timestamp in milliseconds. -/
structure powStatusResponse where
  hasValidPow : Bool
  powExpiresAt : Int
  hasOngoingChallenge : Bool
deriving DecidableEq, Repr

/-- `powChallengeResponse` (src/api.go:240-244). -/
structure powChallengeResponse where
  challenge : String
  difficulty : Int
  expiresAt : Int
deriving DecidableEq, Repr

/-! ### Retry/backoff layer (src/main.go:288-326)

The underlying remote call is scripted as a list of outcomes; each loop
iteration consumes the next one.  The result carries the value returned,
the sleep durations (in seconds) performed between calls, and the number
of calls issued; `none` means the scripted outcomes ran out while the
wrapper was still retrying. -/

/-- One backoff update (src/main.go:299-301,319-321): double while still
below 30 seconds. -/
def backoffStep (b : Nat) : Nat := if b < 30 then b * 2 else b

/-- The shared retry loop of `puzzleNewWithRetry` and `submitWithRetry`:
return on success or on any non-429 error; on a 429 `apiError` sleep for
the current backoff, update it, and call again. -/
def retryOn429 {α : Type} : List (Except GoErr α) → Nat → Option (Except GoErr α × List Nat × Nat)
  | [], _ => none
  | .ok a :: _, _ => some (.ok a, [], 1)
  | .error e :: rest, b =>
    if isRateLimitErr e then
      match retryOn429 rest (backoffStep b) with
      | none => none
      | some (r, sleeps, calls) => some (r, b :: sleeps, calls + 1)
    else some (.error e, [], 1)

/-- The initial backoff of both wrappers: 2 seconds. -/
def initialBackoff : Nat := 2

/-- `puzzleNewWithRetry` (src/main.go:288-306) over scripted outcomes of
`client.puzzleNew`. -/
def puzzleNewWithRetry (outcomes : List (Except GoErr puzzleNewResponse)) :
    Option (Except GoErr puzzleNewResponse × List Nat × Nat) :=
  retryOn429 outcomes initialBackoff

/-- `submitWithRetry` (src/main.go:308-326) over scripted outcomes of
`client.puzzleSubmit`; its retry structure is identical to
`puzzleNewWithRetry`. -/
def submitWithRetry (outcomes : List (Except GoErr puzzleSubmitResponse)) :
    Option (Except GoErr puzzleSubmitResponse × List Nat × Nat) :=
  retryOn429 outcomes initialBackoff

/-- The sequence of sleeps performed for `n` consecutive rate-limited
responses starting from backoff `b`. -/
def backoffSeq : Nat → Nat → List Nat
  | _, 0 => []
  | b, n + 1 => b :: backoffSeq (backoffStep b) n

/-! ### SHA-256 (Go `crypto/sha256`, executable model)

Bytes are naturals below 256, 32-bit words are naturals reduced modulo
`2 ^ 32`.  This is the standard FIPS 180-4 SHA-256, used by
`computePowNonce` (src/unnamed/part_000:80). -/

/-- Reduce to a 32-bit word. -/
def w32 (x : Nat) : Nat := x % 4294967296

/-- 32-bit right rotation. -/
def rotr32 (n x : Nat) : Nat := w32 ((x >>> n) ||| (x <<< (32 - n)))

/-- SHA-256 `Ch`. -/
def shaCh (x y z : Nat) : Nat := (x &&& y) ^^^ ((x ^^^ 4294967295) &&& z)

/-- SHA-256 `Maj`. -/
def shaMaj (x y z : Nat) : Nat := (x &&& y) ^^^ (x &&& z) ^^^ (y &&& z)

/-- SHA-256 `Σ₀`. -/
def shaBigSigma0 (x : Nat) : Nat := rotr32 2 x ^^^ rotr32 13 x ^^^ rotr32 22 x

/-- SHA-256 `Σ₁`. -/
def shaBigSigma1 (x : Nat) : Nat := rotr32 6 x ^^^ rotr32 11 x ^^^ rotr32 25 x

/-- SHA-256 `σ₀`. -/
def shaSmallSigma0 (x : Nat) : Nat := rotr32 7 x ^^^ rotr32 18 x ^^^ (x >>> 3)

/-- SHA-256 `σ₁`. -/
def shaSmallSigma1 (x : Nat) : Nat := rotr32 17 x ^^^ rotr32 19 x ^^^ (x >>> 10)

/-- The 64 SHA-256 round constants. -/
def shaK : List Nat :=
  [1116352408, 1899447441, 3049323471, 3921009573, 961987163, 1508970993,
   2453635748, 2870763221, 3624381080, 310598401, 607225278, 1426881987,
   1925078388, 2162078206, 2614888103, 3248222580, 3835390401, 4022224774,
   264347078, 604807628, 770255983, 1249150122, 1555081692, 1996064986,
   2554220882, 2821834349, 2952996808, 3210313671, 3336571891, 3584528711,
   113926993, 338241895, 666307205, 773529912, 1294757372, 1396182291,
   1695183700, 1986661051, 2177026350, 2456956037, 2730485921, 2820302411,
   3259730800, 3345764771, 3516065817, 3600352804, 4094571909, 275423344,
   430227734, 506948616, 659060556, 883997877, 958139571, 1322822218,
   1537002063, 1747873779, 1955562222, 2024104815, 2227730452, 2361852424,
   2428436474, 2756734187, 3204031479, 3329325298]

/-- The SHA-256 initial hash value. -/
def shaH0 : List Nat :=
  [1779033703, 3144134277, 1013904242, 2773480762,
   1359893119, 2600822924, 528734635, 1541459225]

/-- Big-endian 8-byte encoding of `n` (the padded bit-length field). -/
def be64 (n : Nat) : List Nat :=
  (List.range 8).map (fun i => (n >>> (8 * (7 - i))) % 256)

/-- SHA-256 padding: append `0x80`, zero bytes to 56 mod 64, and the
64-bit big-endian bit length. -/
def shaPad (msg : List Nat) : List Nat :=
  let L := msg.length
  let z := (64 + 56 - ((L + 1) % 64)) % 64
  msg ++ [0x80] ++ List.replicate z 0 ++ be64 (8 * L)

/-- Split a list into 64-byte chunks (fuel-driven structural recursion;
with `fuel ≥ l.length` every chunk is produced, since each round consumes
at least one element). -/
def chunks64F : Nat → List Nat → List (List Nat)
  | 0, _ => []
  | _ + 1, [] => []
  | fuel + 1, b :: t => ((b :: t).take 64) :: chunks64F fuel ((b :: t).drop 64)

/-- Split a list into 64-byte chunks. -/
def chunks64 (l : List Nat) : List (List Nat) := chunks64F l.length l

/-- Parse 4 bytes big-endian into one 32-bit word, walking the block. -/
def words16 : List Nat → List Nat
  | b0 :: b1 :: b2 :: b3 :: rest =>
    (b0 <<< 24 ||| b1 <<< 16 ||| b2 <<< 8 ||| b3) :: words16 rest
  | _ => []

/-- Extend 16 message words to the 64-word schedule. -/
def msgSchedule (w16 : List Nat) : List Nat :=
  (List.range 48).foldl
    (fun ws _ =>
      let n := ws.length
      ws ++ [w32 (shaSmallSigma1 (ws.getD (n - 2) 0) + ws.getD (n - 7) 0 +
        shaSmallSigma0 (ws.getD (n - 15) 0) + ws.getD (n - 16) 0)])
    w16

/-- The 8-word SHA-256 working state. -/
structure ShaState where
  a : Nat
  b : Nat
  c : Nat
  d : Nat
  e : Nat
  f : Nat
  g : Nat
  h : Nat
deriving DecidableEq, Repr

/-- One compression round. -/
def shaRound (st : ShaState) (kw : Nat × Nat) : ShaState :=
  let t1 := st.h + shaBigSigma1 st.e + shaCh st.e st.f st.g + kw.1 + kw.2
  let t2 := shaBigSigma0 st.a + shaMaj st.a st.b st.c
  ⟨w32 (t1 + t2), st.a, st.b, st.c, w32 (st.d + t1), st.e, st.f, st.g⟩

/-- Compress one 64-byte block into the running hash (8 words). -/
def compressBlock (hws : List Nat) (block : List Nat) : List Nat :=
  let ws := msgSchedule (words16 block)
  let init : ShaState :=
    ⟨hws.getD 0 0, hws.getD 1 0, hws.getD 2 0, hws.getD 3 0,
     hws.getD 4 0, hws.getD 5 0, hws.getD 6 0, hws.getD 7 0⟩
  let st := (shaK.zip ws).foldl (fun s kw => shaRound s (kw.1, kw.2)) init
  [w32 (hws.getD 0 0 + st.a), w32 (hws.getD 1 0 + st.b), w32 (hws.getD 2 0 + st.c),
   w32 (hws.getD 3 0 + st.d), w32 (hws.getD 4 0 + st.e), w32 (hws.getD 5 0 + st.f),
   w32 (hws.getD 6 0 + st.g), w32 (hws.getD 7 0 + st.h)]

/-- SHA-256 of a byte list, as the 32-byte digest (big-endian words). -/
def sha256Bytes (msg : List Nat) : List Nat :=
  let hws := (chunks64 (shaPad msg)).foldl compressBlock shaH0
  hws.foldr (fun w acc => (w >>> 24) % 256 :: (w >>> 16) % 256 :: (w >>> 8) % 256 :: w % 256 :: acc) []

/-- UTF-8 encoding of one character (Go `[]byte(string)` semantics). -/
def utf8Char (c : Char) : List Nat :=
  let n := c.toNat
  if n < 0x80 then [n]
  else if n < 0x800 then [0xC0 ||| (n >>> 6), 0x80 ||| (n &&& 0x3F)]
  else if n < 0x10000 then
    [0xE0 ||| (n >>> 12), 0x80 ||| ((n >>> 6) &&& 0x3F), 0x80 ||| (n &&& 0x3F)]
  else
    [0xF0 ||| (n >>> 18), 0x80 ||| ((n >>> 12) &&& 0x3F), 0x80 ||| ((n >>> 6) &&& 0x3F),
     0x80 ||| (n &&& 0x3F)]

/-- UTF-8 bytes of a string (Go `[]byte(s)`). -/
def strBytes (s : String) : List Nat :=
  s.data.foldr (fun c acc => utf8Char c ++ acc) []

/-! ### PoW engine (src/unnamed/part_000:56-110) -/

/-- Errors of `computePowNonce`: the invalid-difficulty guard
(src/unnamed/part_000:59-61) and context cancellation (the model's fuel
running out stands for the external cancellation of the otherwise
unbounded loop). -/
inductive PowErr where
  | invalidDifficulty (d : Int)
  | cancelled
deriving DecidableEq, Repr

/-- `hasLeadingZeroNibbles` (src/unnamed/part_000:100-110): the first
`fullZeroBytes` bytes of the digest are zero, and when `halfNibble` the
high nibble of the next byte is zero too. -/
def hasLeadingZeroNibbles (sum : List Nat) (fullZeroBytes : Nat) (halfNibble : Bool) : Bool :=
  ((sum.take fullZeroBytes).all fun b => b == 0) &&
    (if halfNibble then sum.getD fullZeroBytes 0 &&& 0xF0 == 0 else true)

/-- The test applied to candidate nonce `i` in the loop body
(src/unnamed/part_000:79-83): SHA-256 of the UTF-8 bytes of
`challenge + strconv.Itoa(i)`, checked for the required leading zero
nibbles. -/
def powTest (challenge : String) (fullZeroBytes : Nat) (halfNibble : Bool) (i : Nat) : Bool :=
  hasLeadingZeroNibbles (sha256Bytes (strBytes (challenge ++ toString i))) fullZeroBytes halfNibble

/-- The search loop of `computePowNonce` (src/unnamed/part_000:70-96),
counting nonces up from `i`; `fuel` bounds the number of attempts the
run performs before the external cancellation fires. -/
def powSearchAux (challenge : String) (fullZeroBytes : Nat) (halfNibble : Bool) :
    Nat → Nat → Option Nat
  | 0, _ => none
  | fuel + 1, i =>
    if powTest challenge fullZeroBytes halfNibble i then some i
    else powSearchAux challenge fullZeroBytes halfNibble fuel (i + 1)

/-- `computePowNonce` (src/unnamed/part_000:58-97): reject difficulties
outside `[0, 64]`, otherwise search from nonce 0 with
`fullZeroBytes = difficulty / 2` and `halfNibble = (difficulty % 2 == 1)`
and return the decimal string of the first nonce that passes.  For
`0 ≤ difficulty` Go's integer `/` and `%` agree with the `Nat` ones used
here. -/
def computePowNonce (challenge : String) (difficulty : Int) (fuel : Nat) : Except PowErr String :=
  if difficulty < 0 ∨ difficulty > 64 then .error (.invalidDifficulty difficulty)
  else
    match powSearchAux challenge (difficulty.toNat / 2) (difficulty.toNat % 2 == 1) fuel 0 with
    | some i => .ok (toString i)
    | none => .error .cancelled

/-! ### PoW freshness policy (src/unnamed/part_000:11-54)

Time is modelled in milliseconds (`powExpiresAt` is a Unix-milli
timestamp and the source compares `exp.Sub(now) < powRefreshWindow`,
which at millisecond granularity is the comparison below). -/

/-- `powRefreshWindow` (src/unnamed/part_000:12), in milliseconds. -/
def powRefreshWindow : Int := 120 * 1000

/-- The refresh decision of `ensurePow` (src/unnamed/part_000:24-27):
`need := !st.HasValidPow`, then forced to true when the PoW is valid but
carries a positive expiry within the safety window of now. -/
def powNeedsRefresh (st : powStatusResponse) (nowMs : Int) : Bool :=
  let need := !st.hasValidPow
  if st.hasValidPow = true ∧ st.powExpiresAt > 0 ∧ st.powExpiresAt - nowMs < powRefreshWindow then
    true
  else need

/-- The scripted environment of one `ensurePow` call: the `powStatus`
response, the current time, and the outcomes of the challenge request and
of the remote verification; `fuel` bounds the nonce search. -/
structure PowEnv where
  status : Except GoErr powStatusResponse
  nowMs : Int
  challenge : Except GoErr powChallengeResponse
  verify : Except GoErr Unit
  fuel : Nat

/-- Map a PoW-engine error to the generic error `ensurePow` returns. -/
def powErrToGoErr : PowErr → GoErr
  | .invalidDifficulty d => .other ("invalid difficulty: " ++ toString d)
  | .cancelled => .other "context canceled"

/-- `ensurePow` (src/unnamed/part_000:15-54).  The boolean records
whether a refresh was triggered (challenge requested, nonce searched,
verification submitted). -/
def ensurePow (env : PowEnv) : Except GoErr Unit × Bool :=
  match env.status with
  | .error e => (.error e, false)
  | .ok st =>
    if powNeedsRefresh st env.nowMs = true then
      ((match env.challenge with
        | .error e => .error e
        | .ok chal =>
          match computePowNonce chal.challenge chal.difficulty env.fuel with
          | .error pe => .error (powErrToGoErr pe)
          | .ok _nonce =>
            match env.verify with
            | .error e => .error e
            | .ok _ => .ok ()), true)
    else (.ok (), false)

/-! ### Interactive login recovery (src/main.go:328-385) -/

/-- `authMaterial` (src/main.go:388-392). -/
structure authMaterial where
  cookie : String
  userAgent : String
  baseURL : String
deriving DecidableEq, Repr

/-- `appConfig` (src/unnamed/part_001): the fields the login recovery
touches (the AI sub-config is irrelevant here and elided). -/
structure appConfig where
  baseURL : String
  cookie : String
  userAgent : String
deriving DecidableEq, Repr

/-- Applying prompted auth material to the config, as done inline twice
in `ensureLoginInteractive` (src/main.go:335-341 and 361-366). -/
def applyAuthMaterial (cfg : appConfig) (m : authMaterial) : appConfig :=
  let cfg1 := { cfg with cookie := m.cookie }
  let cfg2 := if m.userAgent != "" then { cfg1 with userAgent := m.userAgent } else cfg1
  if m.baseURL != "" && cfg2.baseURL == "" then { cfg2 with baseURL := m.baseURL } else cfg2

/-- `newAPIClient`'s only modelled failure (src/api.go:29-31): an empty
`base_url` is rejected (URL-parse failures of non-empty strings are not
modelled). -/
def newAPIClientOk (cfg : appConfig) : Except GoErr Unit :=
  if cfg.baseURL == "" then .error (.other "base_url is required") else .ok ()

/-- The terminal failure of the login recovery (src/main.go:379). -/
def loginStillInvalidErr : GoErr :=
  .other "login still invalid: please check cookie/token"

/-- Scripted outcomes for one `ensureLoginInteractive` call, indexed by
occurrence order: the i-th prompt performed reads `prompt_i`, the i-th
`saveConfig` reads `save_i`, the i-th `authMe` validation reads
`validate_i`.  At most two of each can occur. -/
structure LoginEnv where
  prompt1 : Except GoErr authMaterial
  prompt2 : Except GoErr authMaterial
  save1 : Except GoErr Unit
  save2 : Except GoErr Unit
  validate1 : Except GoErr Unit
  validate2 : Except GoErr Unit

/-- The validation phase of `ensureLoginInteractive` (src/main.go:348-383):
build the client, validate; on an auth error prompt once more, apply,
save, rebuild and re-validate; a second auth failure is the terminal
"login still invalid" error and any non-auth error aborts as is.
Returns the resulting config together with the total number of prompts
performed (`promptsBefore` counts prompts done before this phase). -/
def loginValidatePhase (cfg : appConfig) (vFirst : Except GoErr Unit)
    (pNext : Except GoErr authMaterial) (sNext : Except GoErr Unit)
    (vSecond : Except GoErr Unit) (promptsBefore : Nat) :
    Except GoErr appConfig × Nat :=
  match newAPIClientOk cfg with
  | .error e => (.error e, promptsBefore)
  | .ok _ =>
    match vFirst with
    | .ok _ => (.ok cfg, promptsBefore)
    | .error e =>
      if isAuthError e = false then (.error e, promptsBefore)
      else
        match pNext with
        | .error pe => (.error pe, promptsBefore + 1)
        | .ok m =>
          let cfg2 := applyAuthMaterial cfg m
          match sNext with
          | .error se => (.error se, promptsBefore + 1)
          | .ok _ =>
            match newAPIClientOk cfg2 with
            | .error e2 => (.error e2, promptsBefore + 1)
            | .ok _ =>
              match vSecond with
              | .ok _ => (.ok cfg2, promptsBefore + 1)
              | .error e2 =>
                if isAuthError e2 = true then (.error loginStillInvalidErr, promptsBefore + 1)
                else (.error e2, promptsBefore + 1)

/-- `ensureLoginInteractive` (src/main.go:328-385): trim the stored
cookie; when it is empty, prompt, apply and save first; then run the
validation phase. -/
def ensureLoginInteractive (cfg0 : appConfig) (env : LoginEnv) : Except GoErr appConfig × Nat :=
  let cfg := { cfg0 with cookie := strTrim cfg0.cookie }
  if cfg.cookie == "" then
    match env.prompt1 with
    | .error pe => (.error pe, 1)
    | .ok m =>
      let cfg2 := applyAuthMaterial cfg m
      match env.save1 with
      | .error se => (.error se, 1)
      | .ok _ => loginValidatePhase cfg2 env.validate1 env.prompt2 env.save2 env.validate2 1
  else
    loginValidatePhase cfg env.validate1 env.prompt1 env.save1 env.validate2 0

/-! ### Orchestration loop (src/main.go:145-263)

One `loopIter` is one pass of the `for solvedCount < count` body, over a
state carrying the counters, the flags, and the scripted outcomes of the
remote operations (fetch outcomes are post-retry-layer, i.e. what
`puzzleNewWithRetry` returned; likewise for submit).  Re-authentication
(`ensureLoginInteractive` plus `newAPIClient`, src/main.go:156-164 and
212-220) is scripted as one combined outcome per cycle.  `Ev` records
the externally visible events of a run; `persistCookieIfChanged` calls
have their errors discarded by the source (`_ =`) and are not modelled. -/

/-- Observable events of a run. -/
inductive Ev where
  | fetchCall
  | submitCall
  | reauth
  | sleepSec (n : Nat)
  | solvedInc
  | stopExhausted
  | autoComplete
  | doneNormal
deriving DecidableEq, Repr

instance {ε α : Type} [DecidableEq ε] [DecidableEq α] : DecidableEq (Except ε α) := fun x y =>
  match x, y with
  | .ok a, .ok b => decidable_of_iff (a = b) (by simp)
  | .error a, .error b => decidable_of_iff (a = b) (by simp)
  | .ok _, .error _ => isFalse (by simp)
  | .error _, .ok _ => isFalse (by simp)

/-- The loop state: counters and flags of `runSolve` plus the scripted
outcomes still to be consumed. -/
structure LoopState where
  count : Int
  solved : Int
  dryRun : Bool
  autoLoop : Bool
  fetches : List (Except GoErr puzzleNewResponse)
  solves : List (Except GoErr Unit)
  submits : List (Except GoErr puzzleSubmitResponse)
  reauths : List (Except GoErr Unit)
  pows : List (Except GoErr Unit)
  rands : List Nat
deriving DecidableEq, Repr

/-- Result of one loop-body pass: stop the run with a final result, or
continue with an updated state; both carry the events of the pass. -/
inductive IterResult where
  | stop (r : Except GoErr Unit) (evs : List Ev)
  | next (s : LoopState) (evs : List Ev)
deriving DecidableEq, Repr

/-- One pass of the loop body (src/main.go:148-254).  `none` means a
scripted list ran out before the pass finished. -/
def loopIter (s0 : LoopState) : Option IterResult :=
  match s0.fetches with
  | [] => none
  | f :: fs =>
    let s := { s0 with fetches := fs }
    match f with
    | .error e =>
      if isDailyExhaustedError e then some (.stop (.ok ()) [.fetchCall, .stopExhausted])
      else if isAuthError e then
        match s.reauths with
        | [] => none
        | r :: rs =>
          match r with
          | .ok _ => some (.next { s with reauths := rs } [.fetchCall, .reauth])
          | .error re => some (.stop (.error re) [.fetchCall, .reauth])
      else some (.stop (.error e) [.fetchCall])
    | .ok pNew =>
      if pNew.dailyRemaining ≤ 0 then some (.stop (.ok ()) [.fetchCall, .stopExhausted])
      else
        match s.solves with
        | [] => none
        | sv :: svs =>
          let s := { s with solves := svs }
          match sv with
          | .error e =>
            if isAIUnavailable e then
              some (.stop (.error (.wrapped "AI unavailable" e)) [.fetchCall])
            else if s.autoLoop then
              match s.rands with
              | [] => none
              | r :: rr =>
                some (.next { s with rands := rr, count := s.solved + 1 }
                  [.fetchCall, .sleepSec (30 + r % 30)])
            else some (.stop (.error (.wrapped "ai solve failed" e)) [.fetchCall])
          | .ok _ =>
            if s.dryRun then
              some (.next { s with solved := s.solved + 1 } [.fetchCall, .solvedInc])
            else
              match s.pows with
              | [] => none
              | p :: ps =>
                let s := { s with pows := ps }
                match p with
                | .error e => some (.stop (.error e) [.fetchCall])
                | .ok _ =>
                  match s.submits with
                  | [] => none
                  | sb :: sbs =>
                    let s := { s with submits := sbs }
                    match sb with
                    | .error e =>
                      if isAuthError e then
                        match s.reauths with
                        | [] => none
                        | r :: rs =>
                          match r with
                          | .ok _ =>
                            some (.next { s with reauths := rs }
                              [.fetchCall, .submitCall, .reauth])
                          | .error re =>
                            some (.stop (.error re) [.fetchCall, .submitCall, .reauth])
                      else some (.stop (.error e) [.fetchCall, .submitCall])
                    | .ok sub =>
                      if !sub.success then
                        some (.stop (.error (.other ("submit failed: " ++ sub.message)))
                          [.fetchCall, .submitCall])
                      else if sub.correct then
                        let solved2 := s.solved + 1
                        if s.autoLoop = true ∧ sub.dailyRemaining > 0 then
                          match s.rands with
                          | [] => none
                          | r :: rr =>
                            some (.next
                              { s with solved := solved2, count := solved2 + 1, rands := rr }
                              [.fetchCall, .submitCall, .solvedInc, .sleepSec (60 + r % 241)])
                        else
                          some (.next { s with solved := solved2 }
                            [.fetchCall, .submitCall, .solvedInc])
                      else
                        if s.autoLoop then
                          match s.rands with
                          | [] => none
                          | r :: rr =>
                            some (.next { s with count := s.solved + 1, rands := rr }
                              [.fetchCall, .submitCall, .sleepSec (30 + r % 30)])
                        else
                          some (.stop (.error (.other "submitted answer was incorrect"))
                            [.fetchCall, .submitCall])

/-- The driver of the loop (src/main.go:147 and 257-263): run passes
while `solved < count`, then finish successfully (with the auto-mode
exhaustion report when `autoLoop`).  `fuel` bounds the number of passes;
`none` means fuel or a scripted list ran out. -/
def runLoop : Nat → LoopState → Option (Except GoErr Unit × List Ev)
  | 0, _ => none
  | fuel + 1, s =>
    if s.solved < s.count then
      match loopIter s with
      | none => none
      | some (.stop r evs) => some (r, evs)
      | some (.next s2 evs) =>
        match runLoop fuel s2 with
        | none => none
        | some (r, evs2) => some (r, evs ++ evs2)
    else
      if s.autoLoop then some (.ok (), [.autoComplete])
      else some (.ok (), [.doneNormal])

/-- The daily-quota checkpoint and initial PoW refresh preceding the loop
(src/main.go:122-135): a successful quota query with `remaining ≤ 0`
stops the run successfully; a failed query is logged and the run
continues; then the initial `ensurePow` outcome (`pow0`) propagates any
error, and otherwise the loop runs.  (The AI-solver construction of
src/main.go:137-143 is assumed configured and elided.) -/
def runSolveQuota (dailyRem : Except GoErr dailyRemainingResponse)
    (pow0 : Except GoErr Unit) (fuel : Nat) (s : LoopState) :
    Option (Except GoErr Unit × List Ev) :=
  let rest : Option (Except GoErr Unit × List Ev) :=
    match pow0 with
    | .error e => some (.error e, [])
    | .ok _ => runLoop fuel s
  match dailyRem with
  | .ok dr => if dr.remaining ≤ 0 then some (.ok (), [.stopExhausted]) else rest
  | .error _ => rest

/-! ### Helper lemmas -/

theorem retryOn429_rate {α : Type} (a : α) :
    ∀ (errs : List GoErr) (b : Nat), (∀ e ∈ errs, isRateLimitErr e = true) →
      retryOn429 (errs.map .error ++ [.ok a]) b =
        some (.ok a, backoffSeq b errs.length, errs.length + 1) := by
  intro errs
  induction errs with
  | nil => intro b _; rfl
  | cons e t ih =>
    intro b hall
    have he : isRateLimitErr e = true := hall e (by simp)
    have ht : ∀ x ∈ t, isRateLimitErr x = true := fun x hx => hall x (by simp [hx])
    simp only [List.map_cons, List.cons_append]
    unfold retryOn429
    rw [he]
    simp only [if_true]
    rw [ih (backoffStep b) ht]
    rfl

theorem backoffSeq_closed : ∀ (n k : Nat), 1 ≤ k → k ≤ 5 →
    backoffSeq (2 ^ k) n = (List.range n).map (fun j => min (2 ^ (k + j)) 32) := by
  intro n
  induction n with
  | zero => intro k _ _; rfl
  | succ m ih =>
    intro k hk1 hk5
    rw [List.range_succ_eq_map]
    simp only [List.map_cons, List.map_map]
    unfold backoffSeq
    have h32 : 2 ^ k ≤ 32 := by
      calc 2 ^ k ≤ 2 ^ 5 := Nat.pow_le_pow_right (by norm_num) hk5
        _ = 32 := by norm_num
    congr 1
    · simp [Nat.min_eq_left h32]
    · by_cases hks : k ≤ 4
      · have hstep : backoffStep (2 ^ k) = 2 ^ (k + 1) := by
          unfold backoffStep
          rw [if_pos]
          · ring
          · calc 2 ^ k ≤ 2 ^ 4 := Nat.pow_le_pow_right (by norm_num) hks
              _ < 30 := by norm_num
        rw [hstep, ih (k + 1) (by omega) (by omega)]
        apply List.map_congr_left
        intro j _
        simp only [Function.comp]
        congr 2
        omega
      · have hk : k = 5 := by omega
        subst hk
        have hstep : backoffStep (2 ^ 5) = 2 ^ 5 := by
          unfold backoffStep
          rw [if_neg]
          norm_num
        rw [hstep, ih 5 (by norm_num) (le_refl 5)]
        apply List.map_congr_left
        intro j _
        simp only [Function.comp]
        have h1 : 32 ≤ 2 ^ (5 + j) := by
          calc (32 : Nat) = 2 ^ 5 := by norm_num
            _ ≤ 2 ^ (5 + j) := Nat.pow_le_pow_right (by norm_num) (by omega)
        have h2 : 32 ≤ 2 ^ (5 + Nat.succ j) := by
          calc (32 : Nat) = 2 ^ 5 := by norm_num
            _ ≤ 2 ^ (5 + Nat.succ j) := Nat.pow_le_pow_right (by norm_num) (by omega)
        rw [Nat.min_eq_right h1, Nat.min_eq_right h2]

/-! ### Claim C9 -/

/-- Claim C9: for every difficulty outside `[0, 64]`, `computePowNonce`
fails immediately with the invalid-difficulty error, for every challenge
string and independently of the available fuel (so no hash attempt is
performed). -/
theorem claim9_theorem (challenge : String) (d : Int) (fuel : Nat)
    (hd : d < 0 ∨ 64 < d) :
    computePowNonce challenge d fuel = .error (.invalidDifficulty d) := by
  unfold computePowNonce
  rw [if_pos hd]

theorem claim9_witness :
    ((65 : Int) < 0 ∨ (64 : Int) < 65) ∧
      computePowNonce "x" 65 0 = .error (.invalidDifficulty 65) ∧
      ((-1 : Int) < 0 ∨ (64 : Int) < -1) ∧
      computePowNonce "abc" (-1) 9 = .error (.invalidDifficulty (-1)) :=
  ⟨Or.inr (by norm_num), claim9_theorem "x" 65 0 (Or.inr (by norm_num)),
   Or.inl (by norm_num), claim9_theorem "abc" (-1) 9 (Or.inl (by norm_num))⟩

/-! ### Claim C10 -/

/-- Claim C10: every error classified as daily-quota-exhausted is also
classified as an auth error (both classifications require an `apiError`
with HTTP status 403), so the two classes overlap and the loop's
behaviour on such an error is fixed by `loopIter` checking
`isDailyExhaustedError` before `isAuthError`. -/
theorem claim10_theorem (e : GoErr) (h : isDailyExhaustedError e = true) :
    isAuthError e = true := by
  unfold isDailyExhaustedError at h
  unfold isAuthError
  cases ha : asApiError e with
  | none => rw [ha] at h; exact absurd h (by simp)
  | some p =>
    rw [ha] at h
    obtain ⟨st, msg⟩ := p
    simp only [Bool.and_eq_true, beq_iff_eq] at h
    simp [h.1]

theorem claim10_witness :
    isDailyExhaustedError (.api 403 "今日次数已用完") = true ∧
      isAuthError (.api 403 "今日次数已用完") = true :=
  ⟨by decide, claim10_theorem _ (by decide)⟩

/-! ### Claim C5 -/

/-- Claim C5: a puzzle-fetch error classified as daily-quota-exhausted
(status 403 with a quota marker in the message) stops the loop
successfully: the pass returns `ok` with no re-authentication event, the
whole run returns `ok`, and the process exit code is 0. -/
theorem claim5_theorem (cnt sol : Int) (dr auto : Bool)
    (fs : List (Except GoErr puzzleNewResponse)) (solves : List (Except GoErr Unit))
    (submits : List (Except GoErr puzzleSubmitResponse))
    (reauths pows : List (Except GoErr Unit)) (rands : List Nat)
    (e : GoErr) (he : isDailyExhaustedError e = true) :
    loopIter ⟨cnt, sol, dr, auto, .error e :: fs, solves, submits, reauths, pows, rands⟩ =
        some (.stop (.ok ()) [.fetchCall, .stopExhausted]) ∧
      processExit (.ok ()) = 0 ∧
      (sol < cnt → ∀ n, runLoop (n + 1)
          ⟨cnt, sol, dr, auto, .error e :: fs, solves, submits, reauths, pows, rands⟩ =
        some (.ok (), [.fetchCall, .stopExhausted])) := by
  have hiter : loopIter
      ⟨cnt, sol, dr, auto, .error e :: fs, solves, submits, reauths, pows, rands⟩ =
      some (.stop (.ok ()) [.fetchCall, .stopExhausted]) := by
    unfold loopIter
    simp [he]
  refine ⟨hiter, rfl, ?_⟩
  intro h n
  unfold runLoop
  rw [if_pos h, hiter]

theorem claim5_witness :
    loopIter ⟨1, 0, false, false, [.error (.api 403 "已完成")], [], [], [], [], []⟩ =
        some (.stop (.ok ()) [.fetchCall, .stopExhausted]) ∧
      processExit (.ok ()) = 0 ∧
      runLoop 1 ⟨1, 0, false, false, [.error (.api 403 "已完成")], [], [], [], [], []⟩ =
        some (.ok (), [.fetchCall, .stopExhausted]) := by
  have h := claim5_theorem 1 0 false false [] [] [] [] [] [] (.api 403 "已完成") (by decide)
  exact ⟨h.1, h.2.1, h.2.2 (by norm_num) 0⟩

/-! ### Claim C1 -/

/-- Claim C1 (counterexample): five consecutive 429 responses followed by
a success make `puzzleNewWithRetry` sleep 2, 4, 8, 16 and then 32
seconds — the fifth sleep exceeds the claimed 30-second cap. -/
theorem claim1_counterexample :
    puzzleNewWithRetry (List.replicate 5 (.error (.api 429 "")) ++
        [.ok ⟨⟨"p"⟩, 3, 1, 10⟩]) =
      some (.ok ⟨⟨"p"⟩, 3, 1, 10⟩, [2, 4, 8, 16, 32], 6) ∧
      (30 : Nat) < 32 :=
  ⟨rfl, by norm_num⟩

/-- Claim C1 (amended): for any `N` rate-limited (429) responses followed
by a success, both retry wrappers issue exactly `N + 1` calls, sleep
`2, 4, 8, 16` and then `32` seconds on every later retry (so each sleep
is `min (2 ^ (k + 1)) 32` — at most 32 s, the doubling merely stopping
once the backoff is at least 30 s), and return the successful result; any
error whose status is not 429 is returned immediately after a single
call. -/
theorem claim1_theorem :
    (∀ (errs : List GoErr) (a : puzzleNewResponse),
      (∀ e ∈ errs, isRateLimitErr e = true) →
      puzzleNewWithRetry (errs.map .error ++ [.ok a]) =
        some (.ok a, (List.range errs.length).map (fun j => min (2 ^ (1 + j)) 32),
          errs.length + 1)) ∧
    (∀ (errs : List GoErr) (a : puzzleSubmitResponse),
      (∀ e ∈ errs, isRateLimitErr e = true) →
      submitWithRetry (errs.map .error ++ [.ok a]) =
        some (.ok a, (List.range errs.length).map (fun j => min (2 ^ (1 + j)) 32),
          errs.length + 1)) ∧
    (∀ (n : Nat), ∀ x ∈ (List.range n).map (fun j => min (2 ^ (1 + j)) 32), x ≤ 32) ∧
    (∀ (e : GoErr) (rest : List (Except GoErr puzzleNewResponse)),
      isRateLimitErr e = false →
      puzzleNewWithRetry (.error e :: rest) = some (.error e, [], 1)) ∧
    (∀ (e : GoErr) (rest : List (Except GoErr puzzleSubmitResponse)),
      isRateLimitErr e = false →
      submitWithRetry (.error e :: rest) = some (.error e, [], 1)) := by
  have hinit : initialBackoff = 2 ^ 1 := rfl
  refine ⟨?_, ?_, ?_, ?_, ?_⟩
  · intro errs a hall
    unfold puzzleNewWithRetry
    rw [hinit, retryOn429_rate a errs (2 ^ 1) hall,
      backoffSeq_closed errs.length 1 (le_refl 1) (by norm_num)]
  · intro errs a hall
    unfold submitWithRetry
    rw [hinit, retryOn429_rate a errs (2 ^ 1) hall,
      backoffSeq_closed errs.length 1 (le_refl 1) (by norm_num)]
  · intro n x hx
    simp only [List.mem_map] at hx
    obtain ⟨j, _, hj⟩ := hx
    omega
  · intro e rest he
    unfold puzzleNewWithRetry retryOn429
    rw [he]
    simp
  · intro e rest he
    unfold submitWithRetry retryOn429
    rw [he]
    simp

theorem claim1_witness :
    (∀ e ∈ [GoErr.api 429 "slow down", GoErr.api 429 ""], isRateLimitErr e = true) ∧
      puzzleNewWithRetry ([GoErr.api 429 "slow down", GoErr.api 429 ""].map .error ++
          [.ok ⟨⟨"w"⟩, 3, 2, 10⟩]) =
        some (.ok ⟨⟨"w"⟩, 3, 2, 10⟩,
          (List.range 2).map (fun j => min (2 ^ (1 + j)) 32), 3) ∧
      isRateLimitErr (GoErr.api 500 "boom") = false ∧
      submitWithRetry [.error (GoErr.api 500 "boom")] =
        some (.error (GoErr.api 500 "boom"), [], 1) := by
  refine ⟨by decide, ?_, by decide, ?_⟩
  · exact claim1_theorem.1 [GoErr.api 429 "slow down", GoErr.api 429 ""]
      ⟨⟨"w"⟩, 3, 2, 10⟩ (by decide)
  · exact claim1_theorem.2.2.2.2 (GoErr.api 500 "boom") [] (by decide)

/-! ### Claim C2 -/

theorem powSearchAux_sound (challenge : String) (fzb : Nat) (half : Bool) :
    ∀ (fuel i n : Nat), powSearchAux challenge fzb half fuel i = some n →
      i ≤ n ∧ powTest challenge fzb half n = true ∧
        ∀ m, i ≤ m → m < n → powTest challenge fzb half m = false := by
  intro fuel
  induction fuel with
  | zero => intro i n h; exact absurd h (by simp [powSearchAux])
  | succ f ih =>
    intro i n h
    unfold powSearchAux at h
    cases ht : powTest challenge fzb half i with
    | true =>
      rw [ht] at h
      simp only [if_true] at h
      injection h with h
      subst h
      exact ⟨le_refl i, ht, fun m him hmi => absurd him (by omega)⟩
    | false =>
      rw [ht] at h
      simp only [Bool.false_eq_true, if_false] at h
      obtain ⟨h1, h2, h3⟩ := ih (i + 1) n h
      refine ⟨by omega, h2, ?_⟩
      intro m him hmn
      rcases Nat.eq_or_lt_of_le him with hm | hm
      · rw [hm] at ht; exact ht
      · exact h3 m (by omega) hmn

/-- Claim C2: whenever `computePowNonce` returns (not cancelled) for a
difficulty `d` in `[0, 64]`, its result is the decimal string of the
smallest natural `n` whose attempt digest has the required leading zero
nibbles (`d / 2` zero bytes, plus a zero high nibble when `d` is odd):
`n` passes the test, all of `0 .. n-1` fail it, and the result is
fuel-independent, hence deterministic and reproducible for a given
challenge and difficulty. -/
theorem claim2_theorem (challenge : String) (d : Int) (fuel : Nat) (s : String)
    (h0 : 0 ≤ d) (h64 : d ≤ 64)
    (hres : computePowNonce challenge d fuel = .ok s) :
    ∃ n : Nat, s = toString n ∧
      powTest challenge (d.toNat / 2) (d.toNat % 2 == 1) n = true ∧
      (∀ m, m < n → powTest challenge (d.toNat / 2) (d.toNat % 2 == 1) m = false) ∧
      (∀ fuel2 s2, computePowNonce challenge d fuel2 = .ok s2 → s2 = s) := by
  have hguard : ¬(d < 0 ∨ d > 64) := by omega
  unfold computePowNonce at hres
  rw [if_neg hguard] at hres
  cases hsearch : powSearchAux challenge (d.toNat / 2) (d.toNat % 2 == 1) fuel 0 with
  | none => rw [hsearch] at hres; exact absurd hres (by simp)
  | some n =>
    rw [hsearch] at hres
    injection hres with hres
    obtain ⟨_, hpass, hmin⟩ := powSearchAux_sound challenge _ _ fuel 0 n hsearch
    refine ⟨n, hres.symm, hpass, fun m hm => hmin m (Nat.zero_le m) hm, ?_⟩
    intro fuel2 s2 hres2
    unfold computePowNonce at hres2
    rw [if_neg hguard] at hres2
    cases hsearch2 : powSearchAux challenge (d.toNat / 2) (d.toNat % 2 == 1) fuel2 0 with
    | none => rw [hsearch2] at hres2; exact absurd hres2 (by simp)
    | some n2 =>
      rw [hsearch2] at hres2
      injection hres2 with hres2
      obtain ⟨_, hpass2, hmin2⟩ := powSearchAux_sound challenge _ _ fuel2 0 n2 hsearch2
      have hnn : n2 = n := by
        rcases Nat.lt_trichotomy n2 n with hlt | heq | hgt
        · have := hmin n2 (Nat.zero_le n2) hlt
          rw [hpass2] at this
          exact absurd this (by simp)
        · exact heq
        · have := hmin2 n (Nat.zero_le n) hgt
          rw [hpass] at this
          exact absurd this (by simp)
      rw [← hres2, hnn, hres]

theorem claim2_witness :
    (0 : Int) ≤ 1 ∧ (1 : Int) ≤ 64 ∧ computePowNonce "ergo" 1 4 = .ok "3" ∧
      (∃ n : Nat, "3" = toString n ∧
        powTest "ergo" ((1 : Int).toNat / 2) ((1 : Int).toNat % 2 == 1) n = true ∧
        (∀ m, m < n → powTest "ergo" ((1 : Int).toNat / 2) ((1 : Int).toNat % 2 == 1) m = false) ∧
        (∀ fuel2 s2, computePowNonce "ergo" 1 fuel2 = .ok s2 → s2 = "3")) := by
  have hres : computePowNonce "ergo" 1 4 = .ok "3" := rfl
  exact ⟨by norm_num, by norm_num, hres,
    claim2_theorem "ergo" 1 4 "3" (by norm_num) (by norm_num) hres⟩

/-- Sanity check of the hash embedding against the FIPS 180-4 test
vector: SHA-256 of the UTF-8 bytes of `"abc"`. -/
theorem sha256Bytes_abc :
    sha256Bytes (strBytes "abc") =
      [0xba, 0x78, 0x16, 0xbf, 0x8f, 0x01, 0xcf, 0xea, 0x41, 0x41, 0x40, 0xde,
       0x5d, 0xae, 0x22, 0x23, 0xb0, 0x03, 0x61, 0xa3, 0x96, 0x17, 0x7a, 0x9c,
       0xb4, 0x10, 0xff, 0x61, 0xf2, 0x00, 0x15, 0xad] := rfl

/-! ### Claim C6 -/

/-- Claim C6 (counterexample): a status with `hasValidPow = true` but
`powExpiresAt = 0` at now = 1000000 ms satisfies
`expiresAt - now < 120s`, yet `ensurePow` performs no refresh, because
the source additionally requires `powExpiresAt > 0`. -/
theorem claim6_counterexample :
    (⟨true, 0, false⟩ : powStatusResponse).hasValidPow = true ∧
      (0 : Int) - 1000000 < powRefreshWindow ∧
      (ensurePow ⟨.ok ⟨true, 0, false⟩, 1000000, .ok ⟨"c", 1, 0⟩, .ok (), 4⟩).2 = false := by
  refine ⟨rfl, by norm_num [powRefreshWindow], ?_⟩
  rfl

/-- Claim C6 (amended): with `hasValidPow = true` a refresh is triggered
exactly when `powExpiresAt > 0` and `expiresAt - now` is strictly below
the 120 s window (a non-positive `powExpiresAt` skips the refresh even
though it is nominally in the past); with `hasValidPow = false` a refresh
is always triggered. -/
theorem claim6_theorem (st : powStatusResponse) (nowMs : Int)
    (chal : Except GoErr powChallengeResponse) (verify : Except GoErr Unit) (fuel : Nat) :
    (st.hasValidPow = true →
      ((ensurePow ⟨.ok st, nowMs, chal, verify, fuel⟩).2 = true ↔
        st.powExpiresAt > 0 ∧ st.powExpiresAt - nowMs < powRefreshWindow)) ∧
    (st.hasValidPow = false →
      (ensurePow ⟨.ok st, nowMs, chal, verify, fuel⟩).2 = true) := by
  have hsnd : (ensurePow ⟨.ok st, nowMs, chal, verify, fuel⟩).2 = powNeedsRefresh st nowMs := by
    unfold ensurePow
    dsimp only
    by_cases hn : powNeedsRefresh st nowMs = true
    · rw [if_pos hn, hn]
    · rw [if_neg hn]
      simp only [Bool.not_eq_true] at hn
      rw [hn]
  constructor
  · intro hv
    rw [hsnd]
    unfold powNeedsRefresh
    rw [hv]
    by_cases hc : st.powExpiresAt > 0 ∧ st.powExpiresAt - nowMs < powRefreshWindow
    · rw [if_pos ⟨rfl, hc.1, hc.2⟩]
      simp [hc]
    · rw [if_neg (fun h => hc ⟨h.2.1, h.2.2⟩)]
      simp only [Bool.not_true]
      constructor
      · intro h; exact absurd h (by simp)
      · intro h; exact absurd h hc
  · intro hv
    rw [hsnd]
    unfold powNeedsRefresh
    rw [hv]
    rw [if_neg (fun h => by simp [hv] at h)]
    rfl

theorem claim6_witness :
    (⟨true, 200000, false⟩ : powStatusResponse).hasValidPow = true ∧
      (ensurePow ⟨.ok ⟨true, 200000, false⟩, 100000, .ok ⟨"c", 1, 0⟩, .ok (), 4⟩).2 = true ∧
      (⟨true, 300000, false⟩ : powStatusResponse).hasValidPow = true ∧
      (ensurePow ⟨.ok ⟨true, 300000, false⟩, 100000, .ok ⟨"c", 1, 0⟩, .ok (), 4⟩).2 = false ∧
      (⟨false, 0, false⟩ : powStatusResponse).hasValidPow = false ∧
      (ensurePow ⟨.ok ⟨false, 0, false⟩, 0, .ok ⟨"c", 1, 0⟩, .ok (), 4⟩).2 = true := by
  refine ⟨rfl, ?_, rfl, ?_, rfl, ?_⟩
  · exact ((claim6_theorem ⟨true, 200000, false⟩ 100000 (.ok ⟨"c", 1, 0⟩) (.ok ()) 4).1
      rfl).mpr (by norm_num [powRefreshWindow])
  · cases hb : (ensurePow ⟨.ok ⟨true, 300000, false⟩, 100000, .ok ⟨"c", 1, 0⟩, .ok (), 4⟩).2 with
    | false => rfl
    | true =>
      have h := ((claim6_theorem ⟨true, 300000, false⟩ 100000 (.ok ⟨"c", 1, 0⟩) (.ok ()) 4).1
        rfl).mp hb
      norm_num [powRefreshWindow] at h
  · exact (claim6_theorem ⟨false, 0, false⟩ 0 (.ok ⟨"c", 1, 0⟩) (.ok ()) 4).2 rfl

/-! ### Claim C4 -/

/-- Claim C4 (counterexample): with `count = 1`, an authentication
failure (401) of the submission is followed by one re-authentication and
then by a **new fetch** — the trace shows `.fetchCall` between `.reauth`
and the next `.submitCall`, so the submission itself is not the operation
retried within the same iteration. -/
theorem claim4_counterexample :
    runLoop 3 ⟨1, 0, false, false,
        [.ok ⟨⟨"p1"⟩, 3, 5, 10⟩, .ok ⟨⟨"p2"⟩, 3, 5, 10⟩],
        [.ok (), .ok ()],
        [.error (.api 401 ""), .ok ⟨true, true, "ok", 2, 10, 10, 4, 10⟩],
        [.ok ()], [.ok (), .ok ()], []⟩ =
      some (.ok (), [.fetchCall, .submitCall, .reauth,
        .fetchCall, .submitCall, .solvedInc, .doneNormal]) := by
  decide

/-- Claim C4 (amended): an auth error (401/403, not classified as
quota-exhausted) on fetch or on submission triggers exactly one
re-authentication cycle (interactive login plus client rebuild, the
single `.reauth` event) and does not increment the solved count; the loop
then restarts the iteration from the fetch step, so a failed fetch is
re-invoked, while after a failed submission a **new puzzle fetch** is
issued rather than a retry of the same submission. -/
theorem claim4_theorem :
    (∀ (cnt sol : Int) (dr auto : Bool) (fs : List (Except GoErr puzzleNewResponse))
      (solves : List (Except GoErr Unit)) (submits : List (Except GoErr puzzleSubmitResponse))
      (rs pows : List (Except GoErr Unit)) (rands : List Nat) (e : GoErr),
      isAuthError e = true → isDailyExhaustedError e = false →
      loopIter ⟨cnt, sol, dr, auto, .error e :: fs, solves, submits, .ok () :: rs, pows, rands⟩ =
        some (.next ⟨cnt, sol, dr, auto, fs, solves, submits, rs, pows, rands⟩
          [.fetchCall, .reauth])) ∧
    (∀ (cnt sol : Int) (auto : Bool) (p : puzzleNewResponse)
      (fs : List (Except GoErr puzzleNewResponse)) (svs : List (Except GoErr Unit))
      (sbs : List (Except GoErr puzzleSubmitResponse)) (rs ps : List (Except GoErr Unit))
      (rands : List Nat) (e : GoErr),
      0 < p.dailyRemaining → isAuthError e = true →
      loopIter ⟨cnt, sol, false, auto, .ok p :: fs, .ok () :: svs, .error e :: sbs,
          .ok () :: rs, .ok () :: ps, rands⟩ =
        some (.next ⟨cnt, sol, false, auto, fs, svs, sbs, rs, ps, rands⟩
          [.fetchCall, .submitCall, .reauth])) := by
  constructor
  · intro cnt sol dr auto fs solves submits rs pows rands e he hd
    unfold loopIter
    simp [he, hd]
  · intro cnt sol auto p fs svs sbs rs ps rands e hp he
    have hnp : ¬(p.dailyRemaining ≤ 0) := by omega
    unfold loopIter
    simp [hnp, he]

theorem claim4_witness :
    isAuthError (GoErr.api 401 "expired") = true ∧
      isDailyExhaustedError (GoErr.api 401 "expired") = false ∧
      loopIter ⟨2, 0, false, false, [.error (.api 401 "expired")], [], [], [.ok ()], [], []⟩ =
        some (.next ⟨2, 0, false, false, [], [], [], [], [], []⟩ [.fetchCall, .reauth]) ∧
      (0 : Int) < 7 ∧
      loopIter ⟨2, 1, false, true, [.ok ⟨⟨"q"⟩, 2, 7, 10⟩], [.ok ()],
          [.error (.api 403 "forbidden")], [.ok ()], [.ok ()], []⟩ =
        some (.next ⟨2, 1, false, true, [], [], [], [], [], []⟩
          [.fetchCall, .submitCall, .reauth]) := by
  refine ⟨by decide, by decide, ?_, by norm_num, ?_⟩
  · exact claim4_theorem.1 2 0 false false [] [] [] [] [] [] (.api 401 "expired")
      (by decide) (by decide)
  · exact claim4_theorem.2 2 1 true ⟨⟨"q"⟩, 2, 7, 10⟩ [] [] [] [] [] []
      (.api 403 "forbidden") (by norm_num) (by decide)

/-! ### Claim C8 -/

/-- Claim C8 (counterexample): auto-loop with `count = 2`: the first
submission returns `correct = true` with `dailyRemaining = 0`, yet the
loop does **not** terminate at that point — `solved = 1 < count = 2`, so
a second fetch is issued (second `.fetchCall` in the trace); the run only
stops because that fetch reports quota exhaustion. -/
theorem claim8_counterexample :
    runLoop 3 ⟨2, 0, false, true,
        [.ok ⟨⟨"p1"⟩, 3, 5, 10⟩, .error (.api 403 "今日次数已用完")],
        [.ok ()], [.ok ⟨true, true, "ok", 2, 10, 10, 0, 10⟩], [], [.ok ()], []⟩ =
      some (.ok (), [.fetchCall, .submitCall, .solvedInc, .fetchCall, .stopExhausted]) := by
  decide

/-- Claim C8 (amended): in auto-loop mode a submission with
`correct = true` increments the solved count; when `dailyRemaining > 0`
the loop sleeps `60 + r % 241` seconds (a value in `[60, 300]`, the
scripted draw `r` standing for `rand.Intn(241)`) and extends the target
to `solved + 1`; when `dailyRemaining ≤ 0` no sleep occurs and the target
is unchanged — the loop then terminates with the daily-limit-exhausted
report and a successful exit only once the solved count has reached the
target (immediately so when `count = 1`). -/
theorem claim8_theorem :
    (∀ (cnt sol : Int) (p : puzzleNewResponse) (sub : puzzleSubmitResponse)
      (fs : List (Except GoErr puzzleNewResponse)) (svs : List (Except GoErr Unit))
      (sbs : List (Except GoErr puzzleSubmitResponse)) (rs ps : List (Except GoErr Unit))
      (r : Nat) (rands : List Nat),
      0 < p.dailyRemaining → sub.success = true → sub.correct = true →
      0 < sub.dailyRemaining →
      loopIter ⟨cnt, sol, false, true, .ok p :: fs, .ok () :: svs, .ok sub :: sbs,
          rs, .ok () :: ps, r :: rands⟩ =
        some (.next ⟨sol + 1 + 1, sol + 1, false, true, fs, svs, sbs, rs, ps, rands⟩
          [.fetchCall, .submitCall, .solvedInc, .sleepSec (60 + r % 241)]) ∧
        60 ≤ 60 + r % 241 ∧ 60 + r % 241 ≤ 300) ∧
    (∀ (cnt sol : Int) (p : puzzleNewResponse) (sub : puzzleSubmitResponse)
      (fs : List (Except GoErr puzzleNewResponse)) (svs : List (Except GoErr Unit))
      (sbs : List (Except GoErr puzzleSubmitResponse)) (rs ps : List (Except GoErr Unit))
      (rands : List Nat),
      0 < p.dailyRemaining → sub.success = true → sub.correct = true →
      sub.dailyRemaining ≤ 0 →
      loopIter ⟨cnt, sol, false, true, .ok p :: fs, .ok () :: svs, .ok sub :: sbs,
          rs, .ok () :: ps, rands⟩ =
        some (.next ⟨cnt, sol + 1, false, true, fs, svs, sbs, rs, ps, rands⟩
          [.fetchCall, .submitCall, .solvedInc])) ∧
    (∀ (s : LoopState) (n : Nat), ¬(s.solved < s.count) → s.autoLoop = true →
      runLoop (n + 1) s = some (.ok (), [.autoComplete]) ∧ processExit (.ok ()) = 0) := by
  refine ⟨?_, ?_, ?_⟩
  · intro cnt sol p sub fs svs sbs rs ps r rands hp hsucc hcorr hrem
    have hnp : ¬(p.dailyRemaining ≤ 0) := by omega
    refine ⟨?_, by omega, by omega⟩
    unfold loopIter
    simp [hnp, hsucc, hcorr, hrem]
  · intro cnt sol p sub fs svs sbs rs ps rands hp hsucc hcorr hrem
    have hnp : ¬(p.dailyRemaining ≤ 0) := by omega
    have hnrem : ¬(0 < sub.dailyRemaining) := by omega
    unfold loopIter
    simp [hnp, hsucc, hcorr, hnrem]
  · intro s n hs hauto
    refine ⟨?_, rfl⟩
    unfold runLoop
    rw [if_neg hs, if_pos hauto]

theorem claim8_witness :
    ((0 : Int) < 5 ∧ (0 : Int) < 4) ∧
      loopIter ⟨1, 0, false, true, [.ok ⟨⟨"w8"⟩, 3, 5, 10⟩], [.ok ()],
          [.ok ⟨true, true, "ok", 2, 10, 10, 4, 10⟩], [], [.ok ()], [100]⟩ =
        some (.next ⟨2, 1, false, true, [], [], [], [], [], []⟩
          [.fetchCall, .submitCall, .solvedInc, .sleepSec 160]) ∧
      loopIter ⟨1, 0, false, true, [.ok ⟨⟨"w8"⟩, 3, 5, 10⟩], [.ok ()],
          [.ok ⟨true, true, "ok", 2, 10, 10, 0, 10⟩], [], [.ok ()], []⟩ =
        some (.next ⟨1, 1, false, true, [], [], [], [], [], []⟩
          [.fetchCall, .submitCall, .solvedInc]) ∧
      runLoop 1 ⟨1, 1, false, true, [], [], [], [], [], []⟩ = some (.ok (), [.autoComplete]) ∧
      processExit (.ok ()) = 0 := by
  refine ⟨⟨by norm_num, by norm_num⟩, ?_, ?_, ?_, rfl⟩
  · have h := (claim8_theorem.1 1 0 ⟨⟨"w8"⟩, 3, 5, 10⟩ ⟨true, true, "ok", 2, 10, 10, 4, 10⟩
      [] [] [] [] [] 100 [] (by norm_num) rfl rfl (by norm_num)).1
    exact h
  · exact claim8_theorem.2.1 1 0 ⟨⟨"w8"⟩, 3, 5, 10⟩ ⟨true, true, "ok", 2, 10, 10, 0, 10⟩
      [] [] [] [] [] [] (by norm_num) rfl rfl (by norm_num)
  · exact (claim8_theorem.2.2 ⟨1, 1, false, true, [], [], [], [], [], []⟩ 0
      (by norm_num) rfl).1

/-! ### Claim C3 -/

/-- Claim C3 (counterexample): the initial daily-quota query fails with a
transport error (neither 429 nor 401/403), yet the run is **not**
terminated with a non-zero status: the failure is logged and swallowed,
the run proceeds to fetch a puzzle, and here ends successfully with exit
code 0 (the fetch reports quota exhaustion). -/
theorem claim3_counterexample :
    runSolveQuota (.error (.other "connection refused")) (.ok ()) 1
        ⟨1, 0, false, false, [.error (.api 403 "已完成")], [], [], [], [], []⟩ =
      some (.ok (), [.fetchCall, .stopExhausted]) ∧
      processExit (.ok ()) = 0 := by
  exact ⟨by decide, rfl⟩

/-- Claim C3 (amended): inside the loop, every puzzle-fetch error that is
neither quota-exhausted nor an auth error, every submission error that is
not an auth error, and every PoW-refresh error (both the initial one and
the pre-submission one) stops the run with that error, giving process
exit code 1.  The initial daily-quota query is the exception: its failure
is logged and swallowed, and the run continues exactly as if the query
had reported remaining quota. -/
theorem claim3_theorem :
    (∀ (e : GoErr) (pow0 : Except GoErr Unit) (fuel : Nat) (s : LoopState),
      runSolveQuota (.error e) pow0 fuel s = runSolveQuota (.ok ⟨1, 0, 1⟩) pow0 fuel s) ∧
    (∀ (cnt sol : Int) (dr auto : Bool) (fs : List (Except GoErr puzzleNewResponse))
      (solves : List (Except GoErr Unit)) (submits : List (Except GoErr puzzleSubmitResponse))
      (rs pows : List (Except GoErr Unit)) (rands : List Nat) (e : GoErr),
      isDailyExhaustedError e = false → isAuthError e = false →
      loopIter ⟨cnt, sol, dr, auto, .error e :: fs, solves, submits, rs, pows, rands⟩ =
          some (.stop (.error e) [.fetchCall]) ∧
        processExit (.error e) = 1) ∧
    (∀ (cnt sol : Int) (auto : Bool) (p : puzzleNewResponse)
      (fs : List (Except GoErr puzzleNewResponse)) (svs : List (Except GoErr Unit))
      (sbs : List (Except GoErr puzzleSubmitResponse)) (rs ps : List (Except GoErr Unit))
      (rands : List Nat) (e : GoErr),
      0 < p.dailyRemaining →
      loopIter ⟨cnt, sol, false, auto, .ok p :: fs, .ok () :: svs, sbs,
          rs, .error e :: ps, rands⟩ =
        some (.stop (.error e) [.fetchCall])) ∧
    (∀ (cnt sol : Int) (auto : Bool) (p : puzzleNewResponse)
      (fs : List (Except GoErr puzzleNewResponse)) (svs : List (Except GoErr Unit))
      (sbs : List (Except GoErr puzzleSubmitResponse)) (rs ps : List (Except GoErr Unit))
      (rands : List Nat) (e : GoErr),
      0 < p.dailyRemaining → isAuthError e = false →
      loopIter ⟨cnt, sol, false, auto, .ok p :: fs, .ok () :: svs, .error e :: sbs,
          rs, .ok () :: ps, rands⟩ =
        some (.stop (.error e) [.fetchCall, .submitCall])) ∧
    (∀ (e : GoErr) (fuel : Nat) (s : LoopState) (dr : dailyRemainingResponse),
      0 < dr.remaining →
      runSolveQuota (.ok dr) (.error e) fuel s = some (.error e, []) ∧
        processExit (.error e) = 1) := by
  refine ⟨?_, ?_, ?_, ?_, ?_⟩
  · intro e pow0 fuel s
    unfold runSolveQuota
    norm_num
  · intro cnt sol dr auto fs solves submits rs pows rands e hd ha
    refine ⟨?_, rfl⟩
    unfold loopIter
    simp [hd, ha]
  · intro cnt sol auto p fs svs sbs rs ps rands e hp
    have hnp : ¬(p.dailyRemaining ≤ 0) := by omega
    unfold loopIter
    simp [hnp]
  · intro cnt sol auto p fs svs sbs rs ps rands e hp ha
    have hnp : ¬(p.dailyRemaining ≤ 0) := by omega
    unfold loopIter
    simp [hnp, ha]
  · intro e fuel s dr hdr
    have hnd : ¬(dr.remaining ≤ 0) := by omega
    refine ⟨?_, rfl⟩
    unfold runSolveQuota
    simp [hnd]

theorem claim3_witness :
    runSolveQuota (.error (.other "dial tcp: timeout")) (.ok ()) 2
        ⟨1, 0, true, false, [.ok ⟨⟨"w3"⟩, 3, 2, 10⟩], [.ok ()], [], [], [], []⟩ =
      runSolveQuota (.ok ⟨1, 0, 1⟩) (.ok ()) 2
        ⟨1, 0, true, false, [.ok ⟨⟨"w3"⟩, 3, 2, 10⟩], [.ok ()], [], [], [], []⟩ ∧
      isDailyExhaustedError (GoErr.other "parse response: bad json") = false ∧
      isAuthError (GoErr.other "parse response: bad json") = false ∧
      loopIter ⟨1, 0, false, false, [.error (.other "parse response: bad json")],
          [], [], [], [], []⟩ =
        some (.stop (.error (.other "parse response: bad json")) [.fetchCall]) ∧
      processExit (.error (.other "parse response: bad json")) = 1 ∧
      loopIter ⟨1, 0, false, false, [.ok ⟨⟨"w3"⟩, 3, 2, 10⟩], [.ok ()], [],
          [], [.error (.api 500 "pow down")], []⟩ =
        some (.stop (.error (.api 500 "pow down")) [.fetchCall]) ∧
      loopIter ⟨1, 0, false, false, [.ok ⟨⟨"w3"⟩, 3, 2, 10⟩], [.ok ()],
          [.error (.api 500 "submit down")], [], [.ok ()], []⟩ =
        some (.stop (.error (.api 500 "submit down")) [.fetchCall, .submitCall]) ∧
      runSolveQuota (.ok ⟨3, 0, 3⟩) (.error (.api 500 "pow down")) 1
          ⟨1, 0, false, false, [], [], [], [], [], []⟩ =
        some (.error (.api 500 "pow down"), []) := by
  have h2 := claim3_theorem.2.1 1 0 false false [] [] [] [] [] []
    (.other "parse response: bad json") (by decide) (by decide)
  refine ⟨claim3_theorem.1 (.other "dial tcp: timeout") (.ok ()) 2 _,
    by decide, by decide, h2.1, h2.2, ?_, ?_, ?_⟩
  · exact claim3_theorem.2.2.1 1 0 false ⟨⟨"w3"⟩, 3, 2, 10⟩ [] [] [] [] [] []
      (.api 500 "pow down") (by norm_num)
  · exact claim3_theorem.2.2.2.1 1 0 false ⟨⟨"w3"⟩, 3, 2, 10⟩ [] [] [] [] [] []
      (.api 500 "submit down") (by norm_num) (by decide)
  · exact (claim3_theorem.2.2.2.2 (.api 500 "pow down") 1
      ⟨1, 0, false, false, [], [], [], [], [], []⟩ ⟨3, 0, 3⟩ (by norm_num)).1

/-! ### Claim C7 -/

theorem loginValidatePhase_prompts_ge (cfg : appConfig) (v1 : Except GoErr Unit)
    (p : Except GoErr authMaterial) (sv : Except GoErr Unit) (v2 : Except GoErr Unit)
    (pb : Nat) : pb ≤ (loginValidatePhase cfg v1 p sv v2 pb).2 := by
  unfold loginValidatePhase
  cases hc : newAPIClientOk cfg with
  | error e => simp [hc]
  | ok u =>
    cases v1 with
    | ok u1 => simp [hc]
    | error e1 =>
      by_cases ha : isAuthError e1 = false
      · simp [hc, ha]
      · cases p with
        | error pe => simp [hc, ha]
        | ok m =>
          cases sv with
          | error se => simp [hc, ha]
          | ok u2 =>
            cases hc2 : newAPIClientOk (applyAuthMaterial cfg m) with
            | error e2 => simp [hc, ha, hc2]
            | ok u3 =>
              cases v2 with
              | ok u4 => simp [hc, ha, hc2]
              | error e2 =>
                by_cases ha2 : isAuthError e2 = true
                · simp [hc, ha, hc2, ha2]
                · simp [hc, ha, hc2, ha2]

/-- Claim C7: the interactive login recovery prompts when the stored
(trimmed) cookie is empty or when a validation fails with an auth error;
when the validation performed after the prompt that follows a failed
validation (the second prompt in the empty-cookie run) again fails with
an auth error, the terminal "login still invalid" failure is returned;
and a non-auth error at either validation step aborts immediately with
that error and no further prompting. -/
theorem claim7_theorem (cfg0 : appConfig) (env : LoginEnv) :
    ((strTrim cfg0.cookie == "") = false →
      newAPIClientOk { cfg0 with cookie := strTrim cfg0.cookie } = .ok () →
      env.validate1 = .ok () →
      ensureLoginInteractive cfg0 env = (.ok { cfg0 with cookie := strTrim cfg0.cookie }, 0)) ∧
    ((strTrim cfg0.cookie == "") = true →
      1 ≤ (ensureLoginInteractive cfg0 env).2) ∧
    (∀ (e1 e2 : GoErr) (m : authMaterial),
      (strTrim cfg0.cookie == "") = false →
      newAPIClientOk { cfg0 with cookie := strTrim cfg0.cookie } = .ok () →
      env.validate1 = .error e1 → isAuthError e1 = true →
      env.prompt1 = .ok m → env.save1 = .ok () →
      newAPIClientOk (applyAuthMaterial { cfg0 with cookie := strTrim cfg0.cookie } m) = .ok () →
      env.validate2 = .error e2 → isAuthError e2 = true →
      ensureLoginInteractive cfg0 env = (.error loginStillInvalidErr, 1)) ∧
    (∀ (e1 e2 : GoErr) (m1 m2 : authMaterial),
      (strTrim cfg0.cookie == "") = true →
      env.prompt1 = .ok m1 → env.save1 = .ok () →
      newAPIClientOk (applyAuthMaterial { cfg0 with cookie := strTrim cfg0.cookie } m1) = .ok () →
      env.validate1 = .error e1 → isAuthError e1 = true →
      env.prompt2 = .ok m2 → env.save2 = .ok () →
      newAPIClientOk (applyAuthMaterial
        (applyAuthMaterial { cfg0 with cookie := strTrim cfg0.cookie } m1) m2) = .ok () →
      env.validate2 = .error e2 → isAuthError e2 = true →
      ensureLoginInteractive cfg0 env = (.error loginStillInvalidErr, 2)) ∧
    (∀ (e : GoErr),
      (strTrim cfg0.cookie == "") = false →
      newAPIClientOk { cfg0 with cookie := strTrim cfg0.cookie } = .ok () →
      env.validate1 = .error e → isAuthError e = false →
      ensureLoginInteractive cfg0 env = (.error e, 0)) ∧
    (∀ (e1 e2 : GoErr) (m : authMaterial),
      (strTrim cfg0.cookie == "") = false →
      newAPIClientOk { cfg0 with cookie := strTrim cfg0.cookie } = .ok () →
      env.validate1 = .error e1 → isAuthError e1 = true →
      env.prompt1 = .ok m → env.save1 = .ok () →
      newAPIClientOk (applyAuthMaterial { cfg0 with cookie := strTrim cfg0.cookie } m) = .ok () →
      env.validate2 = .error e2 → isAuthError e2 = false →
      ensureLoginInteractive cfg0 env = (.error e2, 1)) := by
  refine ⟨?_, ?_, ?_, ?_, ?_, ?_⟩
  · intro hck hcl hv1
    unfold ensureLoginInteractive
    simp only [hck, Bool.false_eq_true, if_false]
    unfold loginValidatePhase
    rw [hcl, hv1]
  · intro hck
    unfold ensureLoginInteractive
    simp only [hck, if_true]
    cases hp1 : env.prompt1 with
    | error pe => simp
    | ok m =>
      cases hs1 : env.save1 with
      | error se => simp
      | ok u =>
        simpa using loginValidatePhase_prompts_ge
          (applyAuthMaterial { cfg0 with cookie := strTrim cfg0.cookie } m)
          env.validate1 env.prompt2 env.save2 env.validate2 1
  · intro e1 e2 m hck hcl hv1 ha1 hp1 hs1 hcl2 hv2 ha2
    unfold ensureLoginInteractive
    simp only [hck, Bool.false_eq_true, if_false]
    unfold loginValidatePhase
    simp [hcl, hv1, ha1, hp1, hs1, hcl2, hv2, ha2]
  · intro e1 e2 m1 m2 hck hp1 hs1 hcl1 hv1 ha1 hp2 hs2 hcl2 hv2 ha2
    unfold ensureLoginInteractive
    simp only [hck, if_true]
    rw [hp1]
    unfold loginValidatePhase
    simp [hs1, hcl1, hv1, ha1, hp2, hs2, hcl2, hv2, ha2]
  · intro e hck hcl hv1 ha
    unfold ensureLoginInteractive
    simp only [hck, Bool.false_eq_true, if_false]
    unfold loginValidatePhase
    simp [hcl, hv1, ha]
  · intro e1 e2 m hck hcl hv1 ha1 hp1 hs1 hcl2 hv2 ha2
    unfold ensureLoginInteractive
    simp only [hck, Bool.false_eq_true, if_false]
    unfold loginValidatePhase
    simp [hcl, hv1, ha1, hp1, hs1, hcl2, hv2, ha2]

theorem claim7_witness :
    ensureLoginInteractive ⟨"https://e.com", " tok=1 ", "ua"⟩
        ⟨.ok ⟨"t", "", ""⟩, .ok ⟨"t", "", ""⟩, .ok (), .ok (), .ok (), .ok ()⟩ =
      (.ok ⟨"https://e.com", "tok=1", "ua"⟩, 0) ∧
      ensureLoginInteractive ⟨"https://e.com", " tok=1 ", "ua"⟩
        ⟨.ok ⟨"tok=2", "", ""⟩, .ok ⟨"tok=3", "", ""⟩, .ok (), .ok (),
         .error (.api 401 "x"), .error (.api 403 "y")⟩ =
        (.error loginStillInvalidErr, 1) ∧
      ensureLoginInteractive ⟨"https://e.com", " tok=1 ", "ua"⟩
        ⟨.ok ⟨"tok=2", "", ""⟩, .ok ⟨"tok=3", "", ""⟩, .ok (), .ok (),
         .error (.other "request failed: eof"), .ok ()⟩ =
        (.error (.other "request failed: eof"), 0) := by
  refine ⟨?_, ?_, ?_⟩
  · exact ( claim7_theorem ⟨"https://e.com", " tok=1 ", "ua"⟩
      ⟨.ok ⟨"t", "", ""⟩, .ok ⟨"t", "", ""⟩, .ok (), .ok (), .ok (), .ok ()⟩).1
      (by decide) rfl rfl
  · exact ( claim7_theorem ⟨"https://e.com", " tok=1 ", "ua"⟩
      ⟨.ok ⟨"tok=2", "", ""⟩, .ok ⟨"tok=3", "", ""⟩, .ok (), .ok (),
       .error (.api 401 "x"), .error (.api 403 "y")⟩).2.2.1
      (.api 401 "x") (.api 403 "y") ⟨"tok=2", "", ""⟩
      (by decide) rfl rfl (by decide) rfl rfl rfl rfl (by decide)
  · exact ( claim7_theorem ⟨"https://e.com", " tok=1 ", "ua"⟩
      ⟨.ok ⟨"tok=2", "", ""⟩, .ok ⟨"tok=3", "", ""⟩, .ok (), .ok (),
       .error (.other "request failed: eof"), .ok ()⟩).2.2.2.2.1
      (.other "request failed: eof") (by decide) rfl rfl (by decide)
